import Mathlib

/-!
Verification of the health-profile manager (health_config.py): the profile
store (deep-merge load, partial updates, BMI), the profile summary renderer,
and the diet-compatibility analyzer.

Python numbers are modeled as exact rationals (`ℚ`) and `round(x, 2)` as
round-half-to-even at two decimal places; JSON objects keep their fields in
insertion order, as Python dicts do.
-/

namespace HealthConfig

/-!
JSON values as read from and written to the persisted profile file.
-/

mutual

inductive JValue where
  | null : JValue
  | bool : Bool → JValue
  | num : ℚ → JValue
  | str : String → JValue
  | arr : JList → JValue
  | obj : JObj → JValue

inductive JList where
  | nil : JList
  | cons : JValue → JList → JList

inductive JObj where
  | nil : JObj
  | cons : String → JValue → JObj → JObj

end

/-- Dictionary lookup: the value of the first field with the given key. -/
def lookupObj : JObj → String → Option JValue
  | JObj.nil, _ => none
  | JObj.cons k v rest, key => if k = key then some v else lookupObj rest key

/-- The keys of a JSON object, in order. -/
def objKeys : JObj → List String
  | JObj.nil => []
  | JObj.cons k _ rest => k :: objKeys rest

mutual

/-- HealthProfile._merge_dicts on a single value pair: when both sides are
dicts the dicts are merged recursively, otherwise the user value wins. -/
def mergeVal : JValue → JValue → JValue
  | JValue.obj ds, JValue.obj us => JValue.obj (mergeFields ds us)
  | _, u => u

/-- HealthProfile._merge_dicts: every user key already present in the default
is overwritten (recursing when both values are dicts); user keys absent from
the default are dropped; the default key order is kept. -/
def mergeFields : JObj → JObj → JObj
  | JObj.nil, _ => JObj.nil
  | JObj.cons k dv rest, us =>
    match lookupObj us k with
    | some uv => JObj.cons k (mergeVal dv uv) (mergeFields rest us)
    | none => JObj.cons k dv (mergeFields rest us)

end

/-- The personal_info section of the default skeleton. -/
def default_personal_info : JObj :=
  JObj.cons "age" JValue.null (
  JObj.cons "gender" JValue.null (
  JObj.cons "height_cm" JValue.null (
  JObj.cons "weight_kg" JValue.null JObj.nil)))

/-- The medical_history section of the default skeleton. -/
def default_medical_history : JObj :=
  JObj.cons "allergies" (JValue.arr JList.nil) (
  JObj.cons "chronic_conditions" (JValue.arr JList.nil) (
  JObj.cons "medications" (JValue.arr JList.nil) (
  JObj.cons "dietary_restrictions" (JValue.arr JList.nil) JObj.nil)))

/-- The health_goals section of the default skeleton. -/
def default_health_goals : JObj :=
  JObj.cons "weight_goal" JValue.null (
  JObj.cons "activity_level" (JValue.str "moderate") (
  JObj.cons "primary_goal" (JValue.str "maintain_health") JObj.nil))

/-- The diet_preferences section of the default skeleton. -/
def default_diet_preferences : JObj :=
  JObj.cons "preferred_cuisines" (JValue.arr JList.nil) (
  JObj.cons "meal_frequency" (JValue.num 3) (
  JObj.cons "water_intake_goal_liters" (JValue.num (5 / 2)) JObj.nil))

/-- The health_metrics section of the default skeleton. -/
def default_health_metrics : JObj :=
  JObj.cons "bmi" JValue.null (
  JObj.cons "last_updated" JValue.null JObj.nil)

/-- The default_profile skeleton built in HealthProfile.load_profile. -/
def default_profile : JObj :=
  JObj.cons "personal_info" (JValue.obj default_personal_info) (
  JObj.cons "medical_history" (JValue.obj default_medical_history) (
  JObj.cons "health_goals" (JValue.obj default_health_goals) (
  JObj.cons "diet_preferences" (JValue.obj default_diet_preferences) (
  JObj.cons "health_metrics" (JValue.obj default_health_metrics) JObj.nil))))

/-- HealthProfile.load_profile: `none` stands for a missing file or an I/O or
parse error (the default is returned); a parsed top-level dict is merged onto
the default skeleton; parsed JSON that is not a dict makes the merge raise,
which is caught, returning the default. -/
def load_profile : Option JValue → JObj
  | some (JValue.obj u) => mergeFields default_profile u
  | some _ => default_profile
  | none => default_profile

/-- Path lookup into nested JSON objects. -/
def getPath : JValue → List String → Option JValue
  | v, [] => some v
  | JValue.obj fs, k :: rest =>
    match lookupObj fs k with
    | some v => getPath v rest
    | none => none
  | _, _ :: _ => none

/-- Whether a JSON value is a dict. -/
def isObjB : JValue → Bool
  | JValue.obj _ => true
  | _ => false

theorem objKeys_mergeFields : ∀ (ds us : JObj), objKeys (mergeFields ds us) = objKeys ds
  | JObj.nil, _ => rfl
  | JObj.cons k dv rest, us => by
    unfold mergeFields
    cases lookupObj us k <;> simp [objKeys, objKeys_mergeFields rest us]

theorem lookupObj_mergeFields :
    ∀ (ds us : JObj) (k : String),
      lookupObj (mergeFields ds us) k =
        (lookupObj ds k).map (fun dv =>
          match lookupObj us k with
          | some uv => mergeVal dv uv
          | none => dv)
  | JObj.nil, _, _ => rfl
  | JObj.cons k' dv rest, us, k => by
    unfold mergeFields
    by_cases hk : k' = k
    · subst hk
      cases h : lookupObj us k' <;> simp [lookupObj, h]
    · cases h : lookupObj us k' <;>
        simp [lookupObj, hk, lookupObj_mergeFields rest us k]

theorem mergeVal_not_obj (dv uv : JValue) (h : isObjB dv = false) :
    mergeVal dv uv = uv := by
  cases dv <;> simp_all [isObjB, mergeVal]

mutual

/-- Keys are pairwise distinct at every dict level along the object spine.
Array contents are never merged, so they are unconstrained. -/
def objNodup : JValue → Bool
  | JValue.obj fs => fieldsNodup fs
  | _ => true

def fieldsNodup : JObj → Bool
  | JObj.nil => true
  | JObj.cons k v rest =>
    decide (k ∉ objKeys rest) && objNodup v && fieldsNodup rest

end

mutual

theorem mergeVal_self : ∀ (v : JValue), objNodup v = true → mergeVal v v = v
  | JValue.null, _ => rfl
  | JValue.bool _, _ => rfl
  | JValue.num _, _ => rfl
  | JValue.str _, _ => rfl
  | JValue.arr _, _ => rfl
  | JValue.obj fs, h => by
    have hf : fieldsNodup fs = true := h
    show JValue.obj (mergeFields fs fs) = JValue.obj fs
    rw [mergeFields_self fs fs hf (fun _ _ => rfl)]

theorem mergeFields_self : ∀ (fs us : JObj),
    fieldsNodup fs = true →
    (∀ k, k ∈ objKeys fs → lookupObj us k = lookupObj fs k) →
    mergeFields fs us = fs
  | JObj.nil, _, _, _ => rfl
  | JObj.cons k dv rest, us, hnd, hlk => by
    have hnd' := hnd
    simp only [fieldsNodup, Bool.and_eq_true, decide_eq_true_eq] at hnd'
    have hk : lookupObj us k = some dv := by
      rw [hlk k (by simp [objKeys])]
      simp [lookupObj]
    unfold mergeFields
    rw [hk]
    show JObj.cons k (mergeVal dv dv) (mergeFields rest us) = JObj.cons k dv rest
    rw [mergeVal_self dv hnd'.1.2,
      mergeFields_self rest us hnd'.2 (fun k' hk' => by
        rw [hlk k' (by simp [objKeys, hk'])]
        have hne : ¬ k = k' := fun he => hnd'.1.1 (he ▸ hk')
        simp [lookupObj, hne])]

end

theorem getPath_mergeVal_objKeys :
    ∀ (path : List String) (d u : JValue) (dObj mObj : JObj),
      getPath d path = some (JValue.obj dObj) →
      getPath (mergeVal d u) path = some (JValue.obj mObj) →
      objKeys mObj = objKeys dObj
  | [], d, u, dObj, mObj, h1, h2 => by
    simp only [getPath, Option.some.injEq] at h1 h2
    subst h1
    cases u with
    | obj us =>
      have hm : mergeVal (JValue.obj dObj) (JValue.obj us) =
          JValue.obj (mergeFields dObj us) := rfl
      rw [hm] at h2
      cases h2
      exact objKeys_mergeFields dObj us
    | null => exact absurd h2 (by simp [mergeVal])
    | bool b => exact absurd h2 (by simp [mergeVal])
    | num q => exact absurd h2 (by simp [mergeVal])
    | str s => exact absurd h2 (by simp [mergeVal])
    | arr xs => exact absurd h2 (by simp [mergeVal])
  | k :: rest, d, u, dObj, mObj, h1, h2 => by
    cases d with
    | obj ds =>
      cases hdv : lookupObj ds k with
      | none => simp [getPath, hdv] at h1
      | some dv =>
        rw [getPath, hdv] at h1
        cases u with
        | obj us =>
          have hlk := lookupObj_mergeFields ds us k
          rw [hdv] at hlk
          have hm : mergeVal (JValue.obj ds) (JValue.obj us) =
              JValue.obj (mergeFields ds us) := rfl
          rw [hm, getPath] at h2
          cases huv : lookupObj us k with
          | some uv =>
            rw [huv] at hlk
            simp only [Option.map_some'] at hlk
            rw [hlk] at h2
            exact getPath_mergeVal_objKeys rest dv uv dObj mObj h1 h2
          | none =>
            rw [huv] at hlk
            simp only [Option.map_some'] at hlk
            rw [hlk] at h2
            have h2' : getPath dv rest = some (JValue.obj mObj) := h2
            have h1' : getPath dv rest = some (JValue.obj dObj) := h1
            rw [h1'] at h2'
            cases h2'
            rfl
        | null => exact absurd h2 (by simp [mergeVal, getPath])
        | bool b => exact absurd h2 (by simp [mergeVal, getPath])
        | num q => exact absurd h2 (by simp [mergeVal, getPath])
        | str s => exact absurd h2 (by simp [mergeVal, getPath])
        | arr xs => exact absurd h2 (by simp [mergeVal, getPath])
    | null => simp [getPath] at h1
    | bool b => simp [getPath] at h1
    | num q => simp [getPath] at h1
    | str s => simp [getPath] at h1
    | arr xs => simp [getPath] at h1

/-- Values of an object are all non-dicts. -/
def valsNonObj : JObj → Bool
  | JObj.nil => true
  | JObj.cons _ v rest => !(isObjB v) && valsNonObj rest

/-- Every dict-valued field of an object has only non-dict values inside. -/
def sectionValsNonObj : JObj → Bool
  | JObj.nil => true
  | JObj.cons _ v rest =>
    (match v with
     | JValue.obj inner => valsNonObj inner
     | _ => true) && sectionValsNonObj rest

theorem lookupObj_valsNonObj :
    ∀ (fs : JObj) (k : String) (v : JValue),
      valsNonObj fs = true → lookupObj fs k = some v → isObjB v = false
  | JObj.cons k' v' rest, k, v, h, hlk => by
    simp only [valsNonObj, Bool.and_eq_true, Bool.not_eq_true'] at h
    rw [lookupObj] at hlk
    by_cases hk : k' = k
    · rw [if_pos hk] at hlk
      cases hlk
      exact h.1
    · rw [if_neg hk] at hlk
      exact lookupObj_valsNonObj rest k v h.2 hlk

theorem lookupObj_sectionValsNonObj :
    ∀ (fs : JObj) (sec : String) (inner : JObj),
      sectionValsNonObj fs = true → lookupObj fs sec = some (JValue.obj inner) →
      valsNonObj inner = true
  | JObj.cons k' v' rest, sec, inner, h, hlk => by
    simp only [sectionValsNonObj, Bool.and_eq_true] at h
    rw [lookupObj] at hlk
    by_cases hk : k' = sec
    · rw [if_pos hk] at hlk
      cases hlk
      exact h.1
    · rw [if_neg hk] at hlk
      exact lookupObj_sectionValsNonObj rest sec inner h.2 hlk

theorem default_profile_sectionValsNonObj : sectionValsNonObj default_profile = true := by
  decide

/-- C4: load() deep-merges the persisted record onto the default record per
leaf field: for every section of the default skeleton and every leaf key in
it, provided the persisted record's copy of that section (when present) is a
dict, the loaded value at that leaf is the persisted value when the persisted
record has the key and the default value when it does not, independently of
the other keys (no whole-section replacement). -/
theorem load_profile_merges_per_leaf
    (us : JObj) (sec leaf : String) (dSec : JObj) (dv : JValue)
    (hsec : lookupObj default_profile sec = some (JValue.obj dSec))
    (hleaf : lookupObj dSec leaf = some dv)
    (husec : lookupObj us sec = none ∨ ∃ o, lookupObj us sec = some (JValue.obj o)) :
    getPath (JValue.obj (load_profile (some (JValue.obj us)))) [sec, leaf] =
      (match getPath (JValue.obj us) [sec, leaf] with
       | some v => some v
       | none => some dv) := by
  have hvno : valsNonObj dSec = true :=
    lookupObj_sectionValsNonObj default_profile sec dSec
      default_profile_sectionValsNonObj hsec
  have hdvno : isObjB dv = false := lookupObj_valsNonObj dSec leaf dv hvno hleaf
  have hload : load_profile (some (JValue.obj us)) = mergeFields default_profile us := rfl
  have hlk := lookupObj_mergeFields default_profile us sec
  rw [hsec] at hlk
  simp only [Option.map_some'] at hlk
  rcases husec with hnone | ⟨o, ho⟩
  · rw [hnone] at hlk
    simp [hload, getPath, hlk, hleaf, hnone]
  · rw [ho] at hlk
    have hlk2 := lookupObj_mergeFields dSec o leaf
    rw [hleaf] at hlk2
    simp only [Option.map_some'] at hlk2
    cases huv : lookupObj o leaf with
    | some uv =>
      rw [huv] at hlk2
      simp [hload, getPath, hlk, hlk2, ho, huv, mergeVal, mergeVal_not_obj dv uv hdvno]
    | none =>
      rw [huv] at hlk2
      simp [hload, getPath, hlk, hlk2, ho, huv, mergeVal]

/-- A persisted record from an older schema: personal_info with only an age
field plus a key the skeleton does not know. -/
def legacy_record : JObj :=
  JObj.cons "personal_info" (JValue.obj (
    JObj.cons "age" (JValue.num 30) (
    JObj.cons "legacy_field" (JValue.num 1) JObj.nil))) JObj.nil

theorem load_profile_merges_per_leaf_witness :
    getPath (JValue.obj (load_profile (some (JValue.obj legacy_record))))
        ["personal_info", "age"] = some (JValue.num 30) := by
  have h := load_profile_merges_per_leaf legacy_record "personal_info" "age"
    default_personal_info JValue.null rfl rfl
    (Or.inr ⟨JObj.cons "age" (JValue.num 30) (
      JObj.cons "legacy_field" (JValue.num 1) JObj.nil), rfl⟩)
  exact h

/-- C8: the deep merge is idempotent: merging a record whose dicts have
duplicate-free keys (as every record of the profile schema does) onto itself
yields the record unchanged. -/
theorem merge_dicts_idem (r : JValue) (h : objNodup r = true) : mergeVal r r = r :=
  mergeVal_self r h

theorem merge_dicts_idem_witness :
    mergeVal (JValue.obj default_profile) (JValue.obj default_profile) =
      JValue.obj default_profile :=
  merge_dicts_idem (JValue.obj default_profile) (by decide)

/-- C9: keys of the persisted record that are absent from the default skeleton
at the same nesting level are silently discarded: the loaded record has
exactly the skeleton's keys at the top level, and wherever both the skeleton
and the loaded record hold a dict at the same path, the loaded dict's keys are
a subset of the skeleton dict's keys. -/
theorem load_profile_keys_subset (us : JObj) :
    objKeys (load_profile (some (JValue.obj us))) = objKeys default_profile ∧
    ∀ (path : List String) (dObj mObj : JObj),
      getPath (JValue.obj default_profile) path = some (JValue.obj dObj) →
      getPath (JValue.obj (load_profile (some (JValue.obj us)))) path =
        some (JValue.obj mObj) →
      objKeys mObj ⊆ objKeys dObj := by
  constructor
  · exact objKeys_mergeFields default_profile us
  · intro path dObj mObj h1 h2
    have h := getPath_mergeVal_objKeys path (JValue.obj default_profile)
      (JValue.obj us) dObj mObj h1 h2
    rw [h]
    exact List.Subset.refl _

/-!
Typed model of the in-memory profile record and its operations. Nullable
fields are `Option`s; Python truthiness on numbers (`0` and `0.0` are falsy)
and strings (`""` is falsy) is modeled explicitly.
-/

structure PersonalInfo where
  age : Option Int
  gender : Option String
  height_cm : Option ℚ
  weight_kg : Option ℚ
deriving DecidableEq

structure MedicalHistory where
  allergies : List String
  chronic_conditions : List String
  medications : List String
  dietary_restrictions : List String
deriving DecidableEq

structure HealthGoals where
  weight_goal : Option ℚ
  activity_level : String
  primary_goal : String
deriving DecidableEq

structure DietPreferences where
  preferred_cuisines : List String
  meal_frequency : ℚ
  water_intake_goal_liters : ℚ
deriving DecidableEq

structure HealthMetrics where
  bmi : Option ℚ
  last_updated : Option String
deriving DecidableEq

structure Profile where
  personal_info : PersonalInfo
  medical_history : MedicalHistory
  health_goals : HealthGoals
  diet_preferences : DietPreferences
  health_metrics : HealthMetrics
deriving DecidableEq

/-- The default profile, as a typed record. -/
def defaultProfile : Profile :=
  { personal_info := { age := none, gender := none, height_cm := none, weight_kg := none }
    medical_history :=
      { allergies := [], chronic_conditions := [], medications := [], dietary_restrictions := [] }
    health_goals :=
      { weight_goal := none, activity_level := "moderate", primary_goal := "maintain_health" }
    diet_preferences :=
      { preferred_cuisines := [], meal_frequency := 3, water_intake_goal_liters := 5 / 2 }
    health_metrics := { bmi := none, last_updated := none } }

/-- Python `if arg is not None: field = arg`: a provided (non-null) argument
overwrites the stored optional field, a null argument leaves it unchanged. -/
def updOpt (arg old : Option α) : Option α :=
  match arg with
  | some x => some x
  | none => old

/-- Round half to even at integer precision, the behavior of Python round. -/
def roundHalfEven (q : ℚ) : ℤ :=
  let n := ⌊q⌋
  let r := q - n
  if r < 1 / 2 then n
  else if 1 / 2 < r then n + 1
  else if n % 2 = 0 then n else n + 1

/-- Python round(x, 2). -/
def round2 (q : ℚ) : ℚ :=
  (roundHalfEven (q * 100) : ℚ) / 100

/-- HealthProfile._calculate_bmi: when height and weight are both truthy
(non-null and nonzero), store weight / (height/100)^2 rounded to two decimal
places; otherwise leave the record unchanged (bmi is never cleared). -/
def calculate_bmi (p : Profile) : Profile :=
  match p.personal_info.height_cm, p.personal_info.weight_kg with
  | some height, some weight =>
    if height ≠ 0 ∧ weight ≠ 0 then
      { p with health_metrics :=
          { p.health_metrics with bmi := some (round2 (weight / (height / 100) ^ 2)) } }
    else p
  | _, _ => p

/-- HealthProfile.save_profile, in-memory effect: stamp last_updated with the
current time. This happens before the file write is attempted. -/
def save_profile (now : String) (p : Profile) : Profile :=
  { p with health_metrics := { p.health_metrics with last_updated := some now } }

/-- HealthProfile.save_profile with the outcome of the file write made
explicit: the timestamp is stamped on the in-memory record first; a write
failure is caught and logged, leaving the stamped in-memory record in place.
Returns the in-memory record together with whether the write succeeded. -/
def save_profile_run (now : String) (writeOk : Bool) (p : Profile) : Profile × Bool :=
  let stamped := { p with health_metrics := { p.health_metrics with last_updated := some now } }
  (stamped, writeOk)

/-- HealthProfile.update_personal_info. -/
def update_personal_info (now : String) (p : Profile)
    (age : Option Int) (gender : Option String)
    (height_cm : Option ℚ) (weight_kg : Option ℚ) : Profile :=
  let p1 := { p with personal_info :=
    { age := updOpt age p.personal_info.age
      gender := updOpt gender p.personal_info.gender
      height_cm := updOpt height_cm p.personal_info.height_cm
      weight_kg := updOpt weight_kg p.personal_info.weight_kg } }
  save_profile now (calculate_bmi p1)

/-- HealthProfile.update_medical_history. -/
def update_medical_history (now : String) (p : Profile)
    (allergies chronic_conditions medications dietary_restrictions :
      Option (List String)) : Profile :=
  let m := p.medical_history
  let p1 := { p with medical_history :=
    { allergies := allergies.getD m.allergies
      chronic_conditions := chronic_conditions.getD m.chronic_conditions
      medications := medications.getD m.medications
      dietary_restrictions := dietary_restrictions.getD m.dietary_restrictions } }
  save_profile now p1

/-- HealthProfile.update_health_goals. -/
def update_health_goals (now : String) (p : Profile)
    (weight_goal : Option ℚ) (activity_level primary_goal : Option String) : Profile :=
  let g := p.health_goals
  let p1 := { p with health_goals :=
    { weight_goal := updOpt weight_goal g.weight_goal
      activity_level := activity_level.getD g.activity_level
      primary_goal := primary_goal.getD g.primary_goal } }
  save_profile now p1

/-- One call to a mutating operation of the profile store, with the wall-clock
timestamp its embedded persist will stamp. -/
inductive UpdateOp where
  | personal (now : String) (age : Option Int) (gender : Option String)
      (height_cm weight_kg : Option ℚ)
  | medical (now : String)
      (allergies chronic_conditions medications dietary_restrictions :
        Option (List String))
  | goals (now : String) (weight_goal : Option ℚ)
      (activity_level primary_goal : Option String)

def applyOp (op : UpdateOp) (p : Profile) : Profile :=
  match op with
  | UpdateOp.personal now age gender height_cm weight_kg =>
    update_personal_info now p age gender height_cm weight_kg
  | UpdateOp.medical now allergies chronic_conditions medications dietary_restrictions =>
    update_medical_history now p allergies chronic_conditions medications
      dietary_restrictions
  | UpdateOp.goals now weight_goal activity_level primary_goal =>
    update_health_goals now p weight_goal activity_level primary_goal

def applyOps : List UpdateOp → Profile → Profile
  | [], p => p
  | op :: rest, p => applyOps rest (applyOp op p)

/-- A profile state of a session that started from the default record (no
persisted file) and performed any sequence of update calls. -/
def Reachable (p : Profile) : Prop :=
  ∃ ops : List UpdateOp, p = applyOps ops defaultProfile

/-- Digits of the fractional part of a nonnegative rational, most significant
first, until the expansion terminates or the fuel runs out. -/
def fracDigits : ℕ → ℚ → String
  | 0, _ => ""
  | fuel + 1, q =>
    if q = 0 then ""
    else
      let q10 := q * 10
      let d := ⌊q10⌋
      toString d ++ fracDigits fuel (q10 - d)

/-- Rendering of a float-valued field in an f-string, e.g. "170.0", "24.22". -/
def pyFloatRepr (q : ℚ) : String :=
  let sign := if q < 0 then "-" else ""
  let a := |q|
  let ip := ⌊a⌋
  let fp := a - ip
  sign ++ (if fp = 0 then toString ip ++ ".0" else toString ip ++ "." ++ fracDigits 17 fp)

/-- The summary list built line by line in HealthProfile.get_profile_summary:
one line per truthy field (Python truthiness: non-null and nonzero or
non-empty), in source order; the activity-level and primary-goal lines are
appended unconditionally. -/
def summaryLines (p : Profile) : List String :=
  (match p.personal_info.age with
   | some a => if a ≠ 0 then ["Age: " ++ toString a ++ " years"] else []
   | none => [])
  ++ (match p.personal_info.gender with
   | some g => if g ≠ "" then ["Gender: " ++ g] else []
   | none => [])
  ++ (match p.personal_info.height_cm with
   | some h => if h ≠ 0 then ["Height: " ++ pyFloatRepr h ++ " cm"] else []
   | none => [])
  ++ (match p.personal_info.weight_kg with
   | some w => if w ≠ 0 then ["Weight: " ++ pyFloatRepr w ++ " kg"] else []
   | none => [])
  ++ (match p.health_metrics.bmi with
   | some b => if b ≠ 0 then ["BMI: " ++ pyFloatRepr b] else []
   | none => [])
  ++ (if p.medical_history.allergies ≠ [] then
        ["Allergies: " ++ String.intercalate ", " p.medical_history.allergies]
      else [])
  ++ (if p.medical_history.chronic_conditions ≠ [] then
        ["Chronic Conditions: " ++ String.intercalate ", " p.medical_history.chronic_conditions]
      else [])
  ++ (if p.medical_history.medications ≠ [] then
        ["Medications: " ++ String.intercalate ", " p.medical_history.medications]
      else [])
  ++ (if p.medical_history.dietary_restrictions ≠ [] then
        ["Dietary Restrictions: " ++
          String.intercalate ", " p.medical_history.dietary_restrictions]
      else [])
  ++ (match p.health_goals.weight_goal with
   | some wg => if wg ≠ 0 then ["Weight Goal: " ++ pyFloatRepr wg ++ " kg"] else []
   | none => [])
  ++ ["Activity Level: " ++ p.health_goals.activity_level,
      "Primary Goal: " ++ p.health_goals.primary_goal]

/-- HealthProfile.get_profile_summary. -/
def get_profile_summary (p : Profile) : String :=
  let summary := summaryLines p
  if summary = [] then "No health information available"
  else String.intercalate "\n" summary

/-- Whether `needle` occurs as a contiguous run inside the character list. -/
def infixOf (needle : List Char) : List Char → Bool
  | [] => needle.isEmpty
  | c :: rest => needle.isPrefixOf (c :: rest) || infixOf needle rest

/-- Python `needle in hay` on strings: substring containment. -/
def strContains (hay needle : String) : Bool :=
  infixOf needle.toList hay.toList

/-- Python str.lower(), character by character (the profile texts are ASCII). -/
def strLower (s : String) : String :=
  String.mk (s.data.map Char.toLower)

/-- The inner for-loops of analyze_diet_compatibility: the first keyword (in
list order) whose lowercased text occurs in the lowercased food text; the
loop breaks at the first match. -/
def firstMatch : List String → String → Option String
  | [], _ => none
  | keyword :: rest, foodLower =>
    if strContains foodLower (strLower keyword) then some keyword
    else firstMatch rest foodLower

structure DietAnalysis where
  compatible_foods : List String
  restricted_foods : List String
  allergen_warnings : List String
  recommendations : List String
deriving DecidableEq

/-- The food loop of analyze_diet_compatibility: for each food, the allergen
scan runs first with first-match-wins, then the restriction scan likewise; a
food joins compatible_foods exactly when neither scan matched. -/
def analyzeFoods (allergies restrictions : List String) : List String → DietAnalysis
  | [] =>
    { compatible_foods := [], restricted_foods := [], allergen_warnings := []
      recommendations := [] }
  | food :: rest =>
    let foodLower := strLower food
    let allergenMatch := firstMatch allergies foodLower
    let restrictionMatch := firstMatch restrictions foodLower
    let r := analyzeFoods allergies restrictions rest
    { compatible_foods :=
        (if allergenMatch = none ∧ restrictionMatch = none then [food] else [])
          ++ r.compatible_foods
      restricted_foods :=
        (match restrictionMatch with
         | some restriction => [food ++ " - Violates " ++ restriction ++ " restriction"]
         | none => []) ++ r.restricted_foods
      allergen_warnings :=
        (match allergenMatch with
         | some allergen => [food ++ " - Contains " ++ allergen]
         | none => []) ++ r.allergen_warnings
      recommendations := r.recommendations }

/-- analyze_diet_compatibility: classify the foods against the profile's
allergies and dietary restrictions. -/
def analyze_diet_compatibility (food_items : List String)
    (health_profile : Profile) : DietAnalysis :=
  analyzeFoods health_profile.medical_history.allergies
    health_profile.medical_history.dietary_restrictions food_items

theorem calculate_bmi_preserves_rest (p : Profile) :
    (calculate_bmi p).personal_info = p.personal_info ∧
    (calculate_bmi p).medical_history = p.medical_history ∧
    (calculate_bmi p).health_goals = p.health_goals ∧
    (calculate_bmi p).diet_preferences = p.diet_preferences ∧
    (calculate_bmi p).health_metrics.last_updated = p.health_metrics.last_updated := by
  cases hh : p.personal_info.height_cm with
  | none => simp [calculate_bmi, hh]
  | some h =>
    cases hw : p.personal_info.weight_kg with
    | none => simp [calculate_bmi, hh, hw]
    | some w =>
      by_cases hc : h ≠ 0 ∧ w ≠ 0
      · simp [calculate_bmi, hh, hw, hc]
      · simp [calculate_bmi, hh, hw, hc]

theorem calculate_bmi_bmi (p : Profile) :
    (calculate_bmi p).health_metrics.bmi =
      (match p.personal_info.height_cm, p.personal_info.weight_kg with
       | some h, some w =>
         if h ≠ 0 ∧ w ≠ 0 then some (round2 (w / (h / 100) ^ 2))
         else p.health_metrics.bmi
       | _, _ => p.health_metrics.bmi) := by
  cases hh : p.personal_info.height_cm with
  | none => simp [calculate_bmi, hh]
  | some h =>
    cases hw : p.personal_info.weight_kg with
    | none => simp [calculate_bmi, hh, hw]
    | some w =>
      by_cases hc : h ≠ 0 ∧ w ≠ 0
      · simp [calculate_bmi, hh, hw, hc]
      · simp [calculate_bmi, hh, hw, hc]

theorem update_personal_info_personal (now : String) (p : Profile)
    (age : Option Int) (gender : Option String) (height_cm weight_kg : Option ℚ) :
    (update_personal_info now p age gender height_cm weight_kg).personal_info =
      { age := updOpt age p.personal_info.age
        gender := updOpt gender p.personal_info.gender
        height_cm := updOpt height_cm p.personal_info.height_cm
        weight_kg := updOpt weight_kg p.personal_info.weight_kg } :=
  (calculate_bmi_preserves_rest
    { p with personal_info :=
      { age := updOpt age p.personal_info.age
        gender := updOpt gender p.personal_info.gender
        height_cm := updOpt height_cm p.personal_info.height_cm
        weight_kg := updOpt weight_kg p.personal_info.weight_kg } }).1

theorem update_personal_info_bmi (now : String) (p : Profile)
    (age : Option Int) (gender : Option String) (height_cm weight_kg : Option ℚ) :
    (update_personal_info now p age gender height_cm weight_kg).health_metrics.bmi =
      (match updOpt height_cm p.personal_info.height_cm,
          updOpt weight_kg p.personal_info.weight_kg with
       | some h, some w =>
         if h ≠ 0 ∧ w ≠ 0 then some (round2 (w / (h / 100) ^ 2))
         else p.health_metrics.bmi
       | _, _ => p.health_metrics.bmi) :=
  calculate_bmi_bmi
    { p with personal_info :=
      { age := updOpt age p.personal_info.age
        gender := updOpt gender p.personal_info.gender
        height_cm := updOpt height_cm p.personal_info.height_cm
        weight_kg := updOpt weight_kg p.personal_info.weight_kg } }

/-- C2 counterexample: a persist whose file write fails still changes the
in-memory last_updated (from null to the new timestamp): save_profile stamps
the timestamp before attempting the write, and the caught write failure does
not undo it. -/
theorem save_profile_failure_counterexample :
    (save_profile_run "2024-01-01T00:00:00" false defaultProfile).2 = false ∧
    defaultProfile.health_metrics.last_updated = none ∧
    (save_profile_run "2024-01-01T00:00:00" false
        defaultProfile).1.health_metrics.last_updated =
      some "2024-01-01T00:00:00" :=
  ⟨rfl, rfl, rfl⟩

/-- C2 amended: persist() stamps last_updated with the current time before the
write is attempted, so the in-memory timestamp holds the new time after every
persist call whether the write succeeded or not; every other field of the
record is left unchanged by persist. -/
theorem save_profile_run_spec (now : String) (writeOk : Bool) (p : Profile) :
    (save_profile_run now writeOk p).1.health_metrics.last_updated = some now ∧
    (save_profile_run now writeOk p).1.personal_info = p.personal_info ∧
    (save_profile_run now writeOk p).1.medical_history = p.medical_history ∧
    (save_profile_run now writeOk p).1.health_goals = p.health_goals ∧
    (save_profile_run now writeOk p).1.diet_preferences = p.diet_preferences ∧
    (save_profile_run now writeOk p).1.health_metrics.bmi = p.health_metrics.bmi ∧
    (save_profile_run now writeOk p).2 = writeOk :=
  ⟨rfl, rfl, rfl, rfl, rfl, rfl, rfl⟩

/-- C3 counterexample: the entirely-empty default record does not produce the
"no information available" sentinel; the activity-level and primary-goal lines
are emitted unconditionally. -/
theorem summary_sentinel_counterexample :
    defaultProfile.personal_info.age = none ∧
    defaultProfile.personal_info.gender = none ∧
    defaultProfile.personal_info.height_cm = none ∧
    defaultProfile.personal_info.weight_kg = none ∧
    defaultProfile.medical_history.allergies = [] ∧
    defaultProfile.medical_history.chronic_conditions = [] ∧
    defaultProfile.medical_history.medications = [] ∧
    defaultProfile.medical_history.dietary_restrictions = [] ∧
    defaultProfile.health_goals.weight_goal = none ∧
    defaultProfile.health_metrics.bmi = none ∧
    get_profile_summary defaultProfile =
      "Activity Level: moderate\nPrimary Goal: maintain_health" ∧
    get_profile_summary defaultProfile ≠ "No health information available" :=
  ⟨rfl, rfl, rfl, rfl, rfl, rfl, rfl, rfl, rfl, rfl, rfl, by decide⟩

/-- C3 amended: the line list always ends with the unconditional
activity-level and primary-goal lines, so it is never empty and summary()
never returns the "no information available" sentinel: it always returns the
newline-join of one line per truthy field, in the fixed source order. -/
theorem get_profile_summary_spec (p : Profile) :
    summaryLines p ≠ [] ∧
    get_profile_summary p = String.intercalate "\n" (summaryLines p) := by
  have h : summaryLines p ≠ [] := by
    simp [summaryLines]
  refine ⟨h, ?_⟩
  show (if summaryLines p = [] then "No health information available"
    else String.intercalate "\n" (summaryLines p)) = String.intercalate "\n" (summaryLines p)
  rw [if_neg h]

/-- The profile of the corrected diet-analysis test case: allergic to nuts,
vegan. -/
def nutsVeganProfile : Profile :=
  { defaultProfile with medical_history :=
      { defaultProfile.medical_history with
          allergies := ["nuts"], dietary_restrictions := ["vegan"] } }

/-- C6: on foods ["mixed nuts", "vegan protein bar"] with allergies ["nuts"]
and restrictions ["vegan"], the analyzer flags "mixed nuts" as containing
nuts, flags "vegan protein bar" as violating the vegan restriction, and finds
no compatible foods. -/
theorem analyze_nuts_vegan_example :
    analyze_diet_compatibility ["mixed nuts", "vegan protein bar"] nutsVeganProfile =
      { compatible_foods := []
        restricted_foods := ["vegan protein bar - Violates vegan restriction"]
        allergen_warnings := ["mixed nuts - Contains nuts"]
        recommendations := [] } := by
  decide

/-- A profile with height 170 cm and weight 70 kg already set. -/
def profile170 : Profile :=
  { defaultProfile with personal_info :=
      { defaultProfile.personal_info with height_cm := some 170, weight_kg := some 70 } }

/-- C7: each update operation overwrites exactly the fields whose argument is
provided (non-null), leaves every field whose argument is omitted unchanged,
and touches no other section (beyond the BMI recomputation of
update_personal_info and the persist timestamp); in particular updating only
the age of a profile with height 170 and weight 70 keeps height and weight
and recomputes BMI = round(70 / 1.7^2, 2) = 24.22 from them. -/
theorem update_partial_frame (now : String) (p : Profile)
    (age : Option Int) (gender : Option String) (height_cm weight_kg : Option ℚ)
    (allergies chronic_conditions medications dietary_restrictions : Option (List String))
    (weight_goal : Option ℚ) (activity_level primary_goal : Option String) :
    ((update_personal_info now p age gender height_cm weight_kg).personal_info =
        { age := updOpt age p.personal_info.age
          gender := updOpt gender p.personal_info.gender
          height_cm := updOpt height_cm p.personal_info.height_cm
          weight_kg := updOpt weight_kg p.personal_info.weight_kg } ∧
      (update_personal_info now p age gender height_cm weight_kg).medical_history =
        p.medical_history ∧
      (update_personal_info now p age gender height_cm weight_kg).health_goals =
        p.health_goals ∧
      (update_personal_info now p age gender height_cm weight_kg).diet_preferences =
        p.diet_preferences) ∧
    ((update_medical_history now p allergies chronic_conditions medications
          dietary_restrictions).medical_history =
        { allergies := allergies.getD p.medical_history.allergies
          chronic_conditions := chronic_conditions.getD p.medical_history.chronic_conditions
          medications := medications.getD p.medical_history.medications
          dietary_restrictions :=
            dietary_restrictions.getD p.medical_history.dietary_restrictions } ∧
      (update_medical_history now p allergies chronic_conditions medications
          dietary_restrictions).personal_info = p.personal_info ∧
      (update_medical_history now p allergies chronic_conditions medications
          dietary_restrictions).health_goals = p.health_goals ∧
      (update_medical_history now p allergies chronic_conditions medications
          dietary_restrictions).diet_preferences = p.diet_preferences ∧
      (update_medical_history now p allergies chronic_conditions medications
          dietary_restrictions).health_metrics.bmi = p.health_metrics.bmi) ∧
    ((update_health_goals now p weight_goal activity_level primary_goal).health_goals =
        { weight_goal := updOpt weight_goal p.health_goals.weight_goal
          activity_level := activity_level.getD p.health_goals.activity_level
          primary_goal := primary_goal.getD p.health_goals.primary_goal } ∧
      (update_health_goals now p weight_goal activity_level primary_goal).personal_info =
        p.personal_info ∧
      (update_health_goals now p weight_goal activity_level primary_goal).medical_history =
        p.medical_history ∧
      (update_health_goals now p weight_goal activity_level primary_goal).diet_preferences =
        p.diet_preferences ∧
      (update_health_goals now p weight_goal activity_level
          primary_goal).health_metrics.bmi = p.health_metrics.bmi) ∧
    ((update_personal_info "t1" profile170 (some 40) none none none).personal_info =
        { age := some 40, gender := none, height_cm := some 170, weight_kg := some 70 } ∧
      (update_personal_info "t1" profile170 (some 40) none none none).health_metrics.bmi =
        some (round2 (70 / (170 / 100) ^ 2)) ∧
      round2 (70 / ((170 : ℚ) / 100) ^ 2) = 1211 / 50) := by
  refine ⟨⟨update_personal_info_personal now p age gender height_cm weight_kg,
      ?_, ?_, ?_⟩,
    ⟨rfl, rfl, rfl, rfl, rfl⟩, ⟨rfl, rfl, rfl, rfl, rfl⟩, ?_, ?_, ?_⟩
  · exact (calculate_bmi_preserves_rest
      { p with personal_info :=
        { age := updOpt age p.personal_info.age
          gender := updOpt gender p.personal_info.gender
          height_cm := updOpt height_cm p.personal_info.height_cm
          weight_kg := updOpt weight_kg p.personal_info.weight_kg } }).2.1
  · exact (calculate_bmi_preserves_rest
      { p with personal_info :=
        { age := updOpt age p.personal_info.age
          gender := updOpt gender p.personal_info.gender
          height_cm := updOpt height_cm p.personal_info.height_cm
          weight_kg := updOpt weight_kg p.personal_info.weight_kg } }).2.2.1
  · exact (calculate_bmi_preserves_rest
      { p with personal_info :=
        { age := updOpt age p.personal_info.age
          gender := updOpt gender p.personal_info.gender
          height_cm := updOpt height_cm p.personal_info.height_cm
          weight_kg := updOpt weight_kg p.personal_info.weight_kg } }).2.2.2.1
  · exact (update_personal_info_personal "t1" profile170
      (some 40) none none none).trans rfl
  · have hb := update_personal_info_bmi "t1" profile170 (some 40) none none none
    rw [hb]
    norm_num [updOpt, profile170, defaultProfile]
  · have h1 : (70 / ((170 : ℚ) / 100) ^ 2) * 100 = 700000 / 289 := by norm_num
    have h2 : ⌊(700000 / 289 : ℚ)⌋ = 2422 := by
      apply Int.floor_eq_iff.mpr
      constructor <;> norm_num
    simp only [round2, roundHalfEven, h1, h2]
    norm_num

theorem bmi_isSome_applyOp (op : UpdateOp) (p : Profile)
    (h : p.health_metrics.bmi.isSome = true) :
    (applyOp op p).health_metrics.bmi.isSome = true := by
  cases op with
  | personal now age gender height_cm weight_kg =>
    show (update_personal_info now p age gender
      height_cm weight_kg).health_metrics.bmi.isSome = true
    rw [update_personal_info_bmi]
    cases hh : updOpt height_cm p.personal_info.height_cm with
    | none => simpa using h
    | some hv =>
      cases hw : updOpt weight_kg p.personal_info.weight_kg with
      | none => simpa using h
      | some wv =>
        by_cases hc : hv ≠ 0 ∧ wv ≠ 0
        · simp [hc]
        · simpa [hc] using h
  | medical now allergies chronic_conditions medications dietary_restrictions => exact h
  | goals now weight_goal activity_level primary_goal => exact h

/-- C10: once bmi is non-null it stays non-null across any sequence of update
calls: null arguments mean leave-unchanged and _calculate_bmi only ever
overwrites bmi with a freshly computed value, never clears it. -/
theorem bmi_stays_set (ops : List UpdateOp) (p : Profile)
    (h : p.health_metrics.bmi.isSome = true) :
    (applyOps ops p).health_metrics.bmi.isSome = true := by
  induction ops generalizing p with
  | nil => exact h
  | cons op rest ih => exact ih (applyOp op p) (bmi_isSome_applyOp op p h)

/-- A profile whose BMI has been computed. -/
def profileWithBmi : Profile :=
  { defaultProfile with health_metrics := { bmi := some 25, last_updated := none } }

theorem bmi_stays_set_witness :
    profileWithBmi.health_metrics.bmi.isSome = true ∧
    (applyOps [UpdateOp.goals "t2" none none none]
        profileWithBmi).health_metrics.bmi.isSome = true :=
  ⟨rfl, bmi_stays_set [UpdateOp.goals "t2" none none none] profileWithBmi rfl⟩

theorem firstMatch_eq_some :
    ∀ (keywords : List String) (s k : String),
      firstMatch keywords s = some k ↔
        strContains s (strLower k) = true ∧
        ∃ pre post, keywords = pre ++ k :: post ∧
          ∀ b ∈ pre, strContains s (strLower b) = false
  | [], s, k => by simp [firstMatch]
  | hd :: tl, s, k => by
    rw [firstMatch]
    by_cases h : strContains s (strLower hd) = true
    · rw [if_pos h]
      constructor
      · intro he
        injection he with he
        subst he
        exact ⟨h, [], tl, rfl, by simp⟩
      · rintro ⟨hk, pre, post, heq, hpre⟩
        cases pre with
        | nil =>
          injection heq with h1 h2
          rw [h1]
        | cons b pre' =>
          injection heq with h1 h2
          subst h1
          exact absurd h (by simp [hpre hd (List.mem_cons_self hd pre')])
    · rw [if_neg h]
      rw [firstMatch_eq_some tl s k]
      constructor
      · rintro ⟨hk, pre, post, heq, hpre⟩
        refine ⟨hk, hd :: pre, post, by simp [heq], ?_⟩
        intro b hb
        rcases List.mem_cons.mp hb with hb | hb
        · subst hb
          exact Bool.not_eq_true _ ▸ Bool.eq_false_iff.mpr h
        · exact hpre b hb
      · rintro ⟨hk, pre, post, heq, hpre⟩
        cases pre with
        | nil =>
          injection heq with h1 h2
          subst h1
          exact absurd hk h
        | cons b pre' =>
          injection heq with h1 h2
          subst h1
          exact ⟨hk, pre', post, h2, fun b hb => hpre b (List.mem_cons_of_mem _ hb)⟩

theorem analyzeFoods_spec (allergies restrictions : List String) :
    ∀ food_items : List String,
      (analyzeFoods allergies restrictions food_items).allergen_warnings =
        food_items.filterMap (fun food =>
          (firstMatch allergies (strLower food)).map
            (fun allergen => food ++ " - Contains " ++ allergen)) ∧
      (analyzeFoods allergies restrictions food_items).restricted_foods =
        food_items.filterMap (fun food =>
          (firstMatch restrictions (strLower food)).map
            (fun restriction => food ++ " - Violates " ++ restriction ++ " restriction")) ∧
      (analyzeFoods allergies restrictions food_items).compatible_foods =
        food_items.filter (fun food =>
          decide (firstMatch allergies (strLower food) = none ∧
            firstMatch restrictions (strLower food) = none)) ∧
      (analyzeFoods allergies restrictions food_items).recommendations = []
  | [] => by simp [analyzeFoods]
  | food :: rest => by
    obtain ⟨h1, h2, h3, h4⟩ := analyzeFoods_spec allergies restrictions rest
    refine ⟨?_, ?_, ?_, ?_⟩ <;>
      simp only [analyzeFoods, h1, h2, h3, h4, List.filterMap_cons, List.filter_cons] <;>
      cases ha : firstMatch allergies (strLower food) <;>
      cases hr : firstMatch restrictions (strLower food) <;>
      simp [ha, hr]

/-- C5: for every food list and profile, the analyzer's allergen_warnings
holds one entry per food whose lowercased text contains some lowercased
allergen — annotated with the first such allergen in list order, the scan
stopping there — and independently restricted_foods does the same over the
restrictions (so a food can land in both); compatible_foods holds exactly the
foods that matched no allergen and no restriction. -/
theorem analyze_diet_compatibility_spec (food_items : List String)
    (health_profile : Profile) :
    ((analyze_diet_compatibility food_items health_profile).allergen_warnings =
        food_items.filterMap (fun food =>
          (firstMatch health_profile.medical_history.allergies (strLower food)).map
            (fun allergen => food ++ " - Contains " ++ allergen)) ∧
      (analyze_diet_compatibility food_items health_profile).restricted_foods =
        food_items.filterMap (fun food =>
          (firstMatch health_profile.medical_history.dietary_restrictions
              (strLower food)).map
            (fun restriction =>
              food ++ " - Violates " ++ restriction ++ " restriction")) ∧
      (analyze_diet_compatibility food_items health_profile).compatible_foods =
        food_items.filter (fun food =>
          decide (firstMatch health_profile.medical_history.allergies
              (strLower food) = none ∧
            firstMatch health_profile.medical_history.dietary_restrictions
              (strLower food) = none)) ∧
      (analyze_diet_compatibility food_items health_profile).recommendations = []) ∧
    ∀ (keywords : List String) (s k : String),
      firstMatch keywords s = some k ↔
        strContains s (strLower k) = true ∧
        ∃ pre post, keywords = pre ++ k :: post ∧
          ∀ b ∈ pre, strContains s (strLower b) = false :=
  ⟨analyzeFoods_spec health_profile.medical_history.allergies
      health_profile.medical_history.dietary_restrictions food_items,
    fun keywords s k => firstMatch_eq_some keywords s k⟩

/-- Validity of the height/weight arguments of one update call: provided
heights and weights are nonzero (the documented valid ranges, 100-250 cm and
30-300 kg, exclude the falsy value 0). -/
def ValidHWOp : UpdateOp → Prop
  | UpdateOp.personal _ _ _ height_cm weight_kg =>
    (∀ h, height_cm = some h → h ≠ 0) ∧ (∀ w, weight_kg = some w → w ≠ 0)
  | _ => True

/-- The invariant tying bmi to the personal fields: stored heights and
weights are nonzero, and bmi is null exactly when height or weight is null. -/
def HWInv (p : Profile) : Prop :=
  (∀ h, p.personal_info.height_cm = some h → h ≠ 0) ∧
  (∀ w, p.personal_info.weight_kg = some w → w ≠ 0) ∧
  (p.health_metrics.bmi = none ↔
    (p.personal_info.height_cm = none ∨ p.personal_info.weight_kg = none))

theorem hwInv_update_personal (now : String) (p : Profile)
    (age : Option Int) (gender : Option String) (height_cm weight_kg : Option ℚ)
    (hH : ∀ h, height_cm = some h → h ≠ 0)
    (hW : ∀ w, weight_kg = some w → w ≠ 0)
    (hp : HWInv p) :
    HWInv (update_personal_info now p age gender height_cm weight_kg) := by
  obtain ⟨hpH, hpW, hpB⟩ := hp
  have hper := update_personal_info_personal now p age gender height_cm weight_kg
  have hbmi := update_personal_info_bmi now p age gender height_cm weight_kg
  have hH' : ∀ h, updOpt height_cm p.personal_info.height_cm = some h → h ≠ 0 := by
    intro h hh
    cases hc : height_cm with
    | some x =>
      rw [hc] at hh
      simp only [updOpt, Option.some.injEq] at hh
      exact hh ▸ hH x hc
    | none =>
      rw [hc] at hh
      simp only [updOpt] at hh
      exact hpH h hh
  have hW' : ∀ w, updOpt weight_kg p.personal_info.weight_kg = some w → w ≠ 0 := by
    intro w hw
    cases hc : weight_kg with
    | some x =>
      rw [hc] at hw
      simp only [updOpt, Option.some.injEq] at hw
      exact hw ▸ hW x hc
    | none =>
      rw [hc] at hw
      simp only [updOpt] at hw
      exact hpW w hw
  refine ⟨?_, ?_, ?_⟩
  · intro h hh
    rw [hper] at hh
    exact hH' h hh
  · intro w hw
    rw [hper] at hw
    exact hW' w hw
  · have e1 : (update_personal_info now p age gender height_cm
        weight_kg).personal_info.height_cm =
          updOpt height_cm p.personal_info.height_cm := by rw [hper]
    have e2 : (update_personal_info now p age gender height_cm
        weight_kg).personal_info.weight_kg =
          updOpt weight_kg p.personal_info.weight_kg := by rw [hper]
    rw [hbmi, e1, e2]
    cases hh : updOpt height_cm p.personal_info.height_cm with
    | none =>
      have hpnone : p.personal_info.height_cm = none := by
        cases hc : height_cm with
        | some x => rw [hc] at hh; simp [updOpt] at hh
        | none => rw [hc] at hh; simpa [updOpt] using hh
      simp [hpB.mpr (Or.inl hpnone)]
    | some hv =>
      cases hw : updOpt weight_kg p.personal_info.weight_kg with
      | none =>
        have hpnone : p.personal_info.weight_kg = none := by
          cases hc : weight_kg with
          | some x => rw [hc] at hw; simp [updOpt] at hw
          | none => rw [hc] at hw; simpa [updOpt] using hw
        simp [hpB.mpr (Or.inr hpnone)]
      | some wv =>
        have h1 : hv ≠ 0 := hH' hv hh
        have h2 : wv ≠ 0 := hW' wv hw
        simp [h1, h2]

theorem hwInv_applyOp (op : UpdateOp) (p : Profile)
    (hop : ValidHWOp op) (hp : HWInv p) : HWInv (applyOp op p) := by
  cases op with
  | personal now age gender height_cm weight_kg =>
    exact hwInv_update_personal now p age gender height_cm weight_kg hop.1 hop.2 hp
  | medical now allergies chronic_conditions medications dietary_restrictions => exact hp
  | goals now weight_goal activity_level primary_goal => exact hp

theorem hwInv_applyOps : ∀ (ops : List UpdateOp) (p : Profile),
    (∀ op ∈ ops, ValidHWOp op) → HWInv p → HWInv (applyOps ops p)
  | [], _, _, hp => hp
  | op :: rest, p, hv, hp =>
    hwInv_applyOps rest (applyOp op p)
      (fun o ho => hv o (List.mem_cons_of_mem _ ho))
      (hwInv_applyOp op p (hv op (List.mem_cons_self op rest)) hp)

theorem hwInv_default : HWInv defaultProfile := by
  refine ⟨?_, ?_, ?_⟩ <;> simp [defaultProfile]

/-- C1 counterexample: the state reached from the default profile by the one
call update_personal_info(height_cm=0, weight_kg=70) has height_cm and
weight_kg both non-null yet bmi still null: the truthiness test
`if height and weight` skips the BMI computation for a zero (falsy) height,
so "bmi is null iff height_cm or weight_kg is null" fails at a reachable
state. -/
theorem bmi_null_iff_counterexample :
    Reachable (applyOps [UpdateOp.personal "t0" none none (some 0) (some 70)]
      defaultProfile) ∧
    ¬ ((applyOps [UpdateOp.personal "t0" none none (some 0) (some 70)]
          defaultProfile).health_metrics.bmi = none ↔
        ((applyOps [UpdateOp.personal "t0" none none (some 0) (some 70)]
            defaultProfile).personal_info.height_cm = none ∨
         (applyOps [UpdateOp.personal "t0" none none (some 0) (some 70)]
            defaultProfile).personal_info.weight_kg = none)) := by
  constructor
  · exact ⟨[UpdateOp.personal "t0" none none (some 0) (some 70)], rfl⟩
  · intro hiff
    have hper : (applyOps [UpdateOp.personal "t0" none none (some 0) (some 70)]
        defaultProfile).personal_info =
        { age := none, gender := none, height_cm := some 0, weight_kg := some 70 } :=
      (update_personal_info_personal "t0" defaultProfile none none
        (some 0) (some 70)).trans rfl
    have hbmi : (applyOps [UpdateOp.personal "t0" none none (some 0) (some 70)]
        defaultProfile).health_metrics.bmi = none := by
      show (update_personal_info "t0" defaultProfile none none
        (some 0) (some 70)).health_metrics.bmi = none
      rw [update_personal_info_bmi]
      simp [updOpt, defaultProfile]
    have h2 := hiff.mp hbmi
    rw [hper] at h2
    simp at h2

/-- C1 amended: (1) after any update_personal_info call that leaves height_cm
and weight_kg set to nonzero (truthy) values, the stored bmi equals
round(weight_kg / (height_cm/100)^2, 2); (2) on every state reachable from
the default profile through update calls whose height/weight arguments stay
in the valid (nonzero) range, bmi is null iff height_cm or weight_kg is null.
Without the nonzero restriction the iff fails (see the counterexample). -/
theorem bmi_spec (now : String) (p : Profile) (age : Option Int)
    (gender : Option String) (height_cm weight_kg : Option ℚ)
    (ops : List UpdateOp) :
    (∀ h w, (update_personal_info now p age gender height_cm
          weight_kg).personal_info.height_cm = some h →
      (update_personal_info now p age gender height_cm
          weight_kg).personal_info.weight_kg = some w →
      h ≠ 0 → w ≠ 0 →
      (update_personal_info now p age gender height_cm
          weight_kg).health_metrics.bmi = some (round2 (w / (h / 100) ^ 2))) ∧
    ((∀ op ∈ ops, ValidHWOp op) →
      ((applyOps ops defaultProfile).health_metrics.bmi = none ↔
        ((applyOps ops defaultProfile).personal_info.height_cm = none ∨
         (applyOps ops defaultProfile).personal_info.weight_kg = none))) := by
  constructor
  · intro h w hh hw h0 w0
    have hper := update_personal_info_personal now p age gender height_cm weight_kg
    rw [hper] at hh hw
    have hh' : updOpt height_cm p.personal_info.height_cm = some h := hh
    have hw' : updOpt weight_kg p.personal_info.weight_kg = some w := hw
    rw [update_personal_info_bmi, hh', hw']
    simp [h0, w0]
  · intro hv
    exact (hwInv_applyOps ops defaultProfile hv hwInv_default).2.2

end HealthConfig
